import Mathlib

/-
Shallow embedding of the zero1-fe-demo repository: a Next.js chat demo with
two request-forwarding API routes (app/api/chat/route.ts, app/api/asr/route.ts)
and a single page UI (app/page.tsx).  Pure request/response logic is embedded
as Lean functions; the UI's React state is embedded as an explicit state
record, and each handler becomes a state transition that also reports which
outgoing network request (if any) it issues.  Backend responses, which arrive
over the network, are passed in as explicit oracle arguments.
-/

/-- A JSON value as far as the chat route inspects one: the route only tests
truthiness and `typeof v === "string"`, so we distinguish strings from every
other JSON value (numbers, booleans, objects, arrays, null). -/
inductive JsonVal where
  | str (s : String)
  | other
  deriving DecidableEq

/-- The parsed JSON body of a request to `app/api/chat/route.ts`:
`const .. message, language .. = body`.  `none` models an absent field.
The `language` field is only ever interpolated into a template string, so it
is modelled as an optional string. -/
structure ChatBody where
  message : Option JsonVal
  language : Option String
  deriving DecidableEq

/-- The environment variables read by the chat route. `none` models an unset
variable. -/
structure ChatEnv where
  llmServerUrl : Option String
  llmModelName : Option String
  deriving DecidableEq

/-- JavaScript `v || dflt` on an optional string: an absent value and the
empty string are both falsy. -/
def jsOr (v : Option String) (dflt : String) : String :=
  match v with
  | some s => if s = "" then dflt else s
  | none => dflt

/-- JavaScript `s.trim()`: remove leading and trailing whitespace (stated
over the ASCII whitespace characters `Char.isWhitespace` recognises, which
cover every input the claims exercise). -/
def jsTrim (s : String) : String :=
  String.mk (((s.data.dropWhile Char.isWhitespace).reverse.dropWhile
    Char.isWhitespace).reverse)

/-- The SYSTEM_PROMPT template literal of app/api/chat/route.ts, verbatim
(it opens and closes with a newline, as the backtick literal does). -/
def SYSTEM_PROMPT : String :=
"\nYou are \"ZeroOne Dialect AI\" — a multilingual customer service agent for the Singapore telco Zero1.

Your job:
- Understand and reply in the SAME language or dialect the user uses.
- Supported languages and dialects: English, Singlish, Mandarin, Hokkien, Cantonese, Teochew.
- If the user mixes languages (very common in Singapore), reply naturally in mixed language too.

Singlish style (very important):
- Use natural Singapore Singlish, not American or Jamaican slang.
- Do NOT use words like \"yuh\", \"ya mon\", \"mate\", or Caribbean-style English.
- Use common Singlish particles like \"lah\", \"lor\", \"leh\", \"mah\", \"meh\", \"ah\", \"hor\" in a natural way.
- Use \"you\" or \"u\" (not \"yuh\"), and simple short sentences.
- \"meh\" is usually used at the END of a question, not at the beginning of a sentence.
- Overall tone should feel like a friendly Singapore CS agent chatting with a customer.

Tone:
- Friendly, concise, helpful.
- Sound like a real Singapore telco customer service agent.
- Keep answers short and practical (2–4 short sentences usually enough).

Rules:
- Do not hallucinate technical info.
- If unsure, give the safest, standard telco explanation.
- Always match the user’s language, dialect, and tone.

Common telco topics you should handle:
- Bill suddenly higher than usual
- Data usage exceeded
- Roaming charges
- Plan upgrade or downgrade
- Contract / SIM card / activation issues
- Slow network or poor coverage
- Payment method / invoice questions

Dialect behaviour:
- For Hokkien: use simple vocabulary, Singapore-style expressions (e.g. \"bo lah\", \"jialat\", \"kan cheong\").
- For Cantonese: Hong Kong / Singapore mix is OK, but keep it simple.
- For Teochew: simple Teochew phrases mixed with Mandarin is OK.
- For Singlish: natural, short, casual, like how people talk in Singapore.

If the user says: \"explain in Hokkien / Cantonese / Teochew\", follow their request.

If the user speaks English or Mandarin, reply in the same language unless they request otherwise.
"

/-- The fixed auto-detect hint line used when no language is selected. -/
def autoDetectHint : String :=
  "User language may change; auto-detect and match the user."

/-- `const languageHint = language ? .. : ..` of the chat route.  A present
but empty string is falsy in JavaScript, so it also selects the auto-detect
hint. -/
def languageHint (language : Option String) : String :=
  match language with
  | some l =>
      if l = "" then autoDetectHint
      else "User selected language/dialect: " ++ l ++
        ". Reply in this language or dialect if possible."
  | none => autoDetectHint

/-- One message object of the payload sent to the chat-completion backend. -/
structure ChatMsg where
  role : String
  content : String
  deriving DecidableEq

/-- The six fixed few-shot example messages of the chat route, verbatim. -/
def fewShotMessages : List ChatMsg :=
  [ { role := "user", content := "Why my bill so high one?" },
    { role := "assistant",
      content := "This month your usage a bit higher lah. You used more data and a few extra calls, so the bill go up. You can check the itemised bill to see which part increase the most." },
    { role := "user", content := "Eh my data finish so fast, what happen ah?" },
    { role := "assistant",
      content := "Maybe got more video or hotspot this month lor. Once you pass the bundle, extra data will charge by rate. Next time can consider bigger plan or set data alert, so you know before it burst." },
    { role := "user", content := "Can explain to me in Singlish, not so formal?" },
    { role := "assistant",
      content := "Can lah. I just explain properly but still in Singlish style. Main thing is you understand what happen to your bill and data usage, okay?" } ]

/-- The JSON payload the chat route posts to the chat-completion backend. -/
structure ChatPayload where
  model : String
  stream : Bool
  messages : List ChatMsg
  deriving DecidableEq

/-- The `payload` object built by the chat route for a validated message. -/
def mkChatPayload (modelName : String) (language : Option String)
    (message : String) : ChatPayload :=
  { model := modelName,
    stream := false,
    messages :=
      { role := "system", content := SYSTEM_PROMPT ++ "\n\n" ++ languageHint language }
        :: fewShotMessages ++ [{ role := "user", content := message }] }

/-- Outcome of the chat route up to (and including) issuing the backend
request: either an early error response, or a `fetch` of the given URL with
the given JSON payload. -/
inductive ChatPrep where
  | badRequest (status : Nat) (error : String)
  | misconfigured (status : Nat) (error : String)
  | call (url : String) (payload : ChatPayload)
  deriving DecidableEq

/-- Whether the outcome performs a call to the chat-completion backend. -/
def ChatPrep.callsBackend : ChatPrep → Bool
  | .call _ _ => true
  | _ => false

/-- The request phase of `POST` in app/api/chat/route.ts: validate `message`
(`if (!message || typeof message !== "string")` rejects absent fields, every
non-string value and the empty string with 400), check `LLM_SERVER_URL`
(an unset or empty variable is falsy, giving 500), then build the payload
and call `fetch(llmBaseUrl + "/api/chat", ..)`. -/
def chatPrepare (body : ChatBody) (env : ChatEnv) : ChatPrep :=
  match body.message with
  | none => .badRequest 400 "Missing message"
  | some .other => .badRequest 400 "Missing message"
  | some (.str m) =>
      if m = "" then .badRequest 400 "Missing message"
      else
        match env.llmServerUrl with
        | none => .misconfigured 500 "LLM_SERVER_URL is not configured"
        | some base =>
            if base = "" then .misconfigured 500 "LLM_SERVER_URL is not configured"
            else .call (base ++ "/api/chat")
              (mkChatPayload (jsOr env.llmModelName "qwen2.5:7b") body.language m)

/-- A value held in a multipart form field, as far as the ASR route inspects
it: a binary blob (a `File`/`Blob`, carrying its bytes), a plain text value,
or an absent field (`formData.get` returned null). -/
inductive FormVal where
  | blob (bytes : List Nat)
  | text (s : String)
  | absent
  deriving DecidableEq

/-- Outcome of the ASR route up to (and including) issuing the backend
request: either an error response, or a multipart `fetch` of the backend URL
with one field of the given name, bytes and filename. -/
inductive AsrPrep where
  | resp (status : Nat) (error : String)
  | call (url : String) (field : String) (bytes : List Nat) (filename : String)
  deriving DecidableEq

/-- The HTTP status of an error response, `none` for a backend call. -/
def AsrPrep.statusOf : AsrPrep → Option Nat
  | .resp s _ => some s
  | .call _ _ _ _ => none

/-- The request phase of `POST` in app/api/asr/route.ts: check
`ASR_SERVER_URL` (unset or empty is falsy, 500), read the `audio` form field,
reject a falsy value (`!audio`: an absent field or an empty text value) with
400, then re-wrap the value as field "file" with filename "input.webm".
`forwardForm.append("file", audio, "input.webm")` requires a Blob when a
filename argument is given (WHATWG XHR FormData; undici raises TypeError for
any other value), so a non-empty plain text value throws and lands in the
route's catch-all, which answers 500. -/
def asrPrepare (asrServerUrl : Option String) (audio : FormVal) : AsrPrep :=
  match asrServerUrl with
  | none => .resp 500 "ASR_SERVER_URL is not configured"
  | some u =>
      if u = "" then .resp 500 "ASR_SERVER_URL is not configured"
      else
        match audio with
        | .absent => .resp 400 "Missing audio file"
        | .text s =>
            if s = "" then .resp 400 "Missing audio file"
            else .resp 500 "Internal server error in /api/asr"
        | .blob b => .call u "file" b "input.webm"

/-- The parsed JSON body returned by the ASR backend; its `text` field may be
absent or hold any JSON value. -/
structure AsrJson where
  text : Option JsonVal
  deriving DecidableEq

/-- The ASR backend's answer to the forwarded request: a non-OK status with
its body text, or an OK response whose body parses to the given JSON value
(`none` models a parse failure or a falsy parse result, both of which the
route treats as `!data`). -/
inductive AsrBackendResp where
  | notOk (status : Nat) (body : String)
  | okBody (json : Option AsrJson)
  deriving DecidableEq

/-- The response the ASR route returns to the browser. -/
inductive AsrResponse where
  | err (status : Nat) (error : String) (backendStatus : Option Nat)
      (backendDetail : Option String)
  | ok (text : String)
  deriving DecidableEq

/-- The response phase of `POST` in app/api/asr/route.ts: a non-OK backend
status is reported as a 500 "ASR backend error" carrying the backend status
and body; a body without a string `text` field is a 500 invalid-response
error; otherwise the route answers `{ text: data.text.trim() }`. -/
def asrHandleBackend : AsrBackendResp → AsrResponse
  | .notOk status body => .err 500 "ASR backend error" (some status) (some body)
  | .okBody none => .err 500 "Invalid response from ASR backend" none none
  | .okBody (some j) =>
      match j.text with
      | some (.str t) => .ok (jsTrim t)
      | some .other => .err 500 "Invalid response from ASR backend" none none
      | none => .err 500 "Invalid response from ASR backend" none none

/-- A chat entry of the UI's `messages` state (app/page.tsx). -/
structure ChatMessage where
  role : String
  content : String
  deriving DecidableEq

/-- The UI state of app/page.tsx that the modelled handlers read or write
(volume metering and the media refs are handled by the recording model
below). -/
structure UIState where
  messages : List ChatMessage
  input : String
  language : String
  loading : Bool
  errorText : String
  isRecording : Bool
  isTranscribing : Bool
  recordingError : String
  deriving DecidableEq

/-- The JSON body posted by the UI to /api/chat. -/
structure ChatReq where
  message : String
  language : Option String
  deriving DecidableEq

/-- Outcome of the UI's `fetch("/api/chat", ..)`: a transport failure (the
fetch throws), a non-OK response carrying the parsed `error` field (`none`
when the body had none or did not parse), or an OK response carrying the
parsed `reply` field. -/
inductive ChatSendResult where
  | netFail
  | httpFail (errField : Option String)
  | ok (reply : Option String)
  deriving DecidableEq

/-- Inline message for a failed chat request (catch branch). -/
def networkFailText : String :=
  "Network request failed. Please check your connection or try again."

/-- Fallback inline message for a non-OK chat response without a usable
`error` field. -/
def serverBusyText : String :=
  "Server is busy. Please try again later."

/-- Fallback reply substituted when the relay's OK response has no reply. -/
def fallbackReplyText : String :=
  "Sorry, I am temporarily unable to respond. Please try again later."

/-- Inline message set by `transcribeAudio` on any failure. -/
def voiceFailText : String :=
  "Voice recognition failed. Please try again or type your message."

/-- `sendMessage(overrideText?)` of app/page.tsx, with the network outcome
passed as an oracle.  Returns the final UI state and the request issued to
/api/chat, `none` when the guard returned early.  The guard
`if (!content || loading) return` makes the call a no-op for blank content or
while a request is in flight; otherwise the user entry is appended
optimistically, the input cleared when no override text was given, and the
outcome handled: non-OK sets `errorText` to the response's error field or the
busy fallback, a throw sets the network-failure text, success appends the
assistant entry; `finally` clears `loading`. -/
def sendMessage (overrideText : Option String) (result : ChatSendResult)
    (s : UIState) : UIState × Option ChatReq :=
  let content := jsTrim (overrideText.getD s.input)
  if content = "" ∨ s.loading = true then (s, none)
  else
    let s1 : UIState :=
      { s with
        messages := s.messages ++ [{ role := "user", content := content }],
        input := if overrideText.isNone then "" else s.input,
        errorText := "",
        loading := true }
    let req : ChatReq :=
      { message := content,
        language := if s.language = "auto" then none else some s.language }
    match result with
    | .netFail =>
        ({ s1 with errorText := networkFailText, loading := false }, some req)
    | .httpFail e =>
        ({ s1 with errorText := jsOr e serverBusyText, loading := false }, some req)
    | .ok r =>
        ({ s1 with
            messages := s1.messages ++
              [{ role := "assistant", content := jsOr r fallbackReplyText }],
            loading := false }, some req)

/-- Outcome of the UI's `fetch("/api/asr", ..)` inside `transcribeAudio`:
transport failure, non-OK response (status and body text), or an OK response
whose JSON carried the given optional `text` field. -/
inductive AsrFlowResult where
  | netFail
  | httpFail (status : Nat) (body : String)
  | ok (text : Option String)
  deriving DecidableEq

/-- `transcribeAudio(blob)` of app/page.tsx, with the network outcome passed
as an oracle.  Returns the text handed back to the caller and the final
`recordingError` state.  A non-OK response and an empty trimmed text both
throw, and the catch returns "" after setting the single voice-failure
message; `finally` clears `isTranscribing`. -/
def transcribeAudio (result : AsrFlowResult) : String × String :=
  match result with
  | .netFail => ("", voiceFailText)
  | .httpFail _ _ => ("", voiceFailText)
  | .ok t =>
      let text := jsTrim (t.getD "")
      if text = "" then ("", voiceFailText) else (text, "")

/-- The inline error text `sendMessage` displays for a given outcome, `none`
when no error is shown. -/
def chatErrorMessage : ChatSendResult → Option String
  | .netFail => some networkFailText
  | .httpFail e => some (jsOr e serverBusyText)
  | .ok _ => none

/-- The inline error text `transcribeAudio` displays for a given outcome,
`none` when no error is shown. -/
def transcribeErrorMessage (result : AsrFlowResult) : Option String :=
  if (transcribeAudio result).snd = "" then none
  else some (transcribeAudio result).snd

/-- `handleAudioBlob(blob)` of app/page.tsx: transcribe the recorded audio;
on a blank result stop, otherwise submit the text through `sendMessage`. -/
def handleAudioBlob (asrResult : AsrFlowResult) (chatResult : ChatSendResult)
    (s : UIState) : UIState × Option ChatReq :=
  let r := transcribeAudio asrResult
  let s1 : UIState := { s with recordingError := r.snd, isTranscribing := false }
  if r.fst = "" then (s1, none)
  else sendMessage (some r.fst) chatResult s1

/-- The `recordingError` text of `startRecording`'s catch branch (the
interpolated error name is abstracted to its fallback "error"; no claim
depends on it). -/
def micErrorText : String :=
  "Could not access microphone (error). Please check permissions and try again."

/-- The `recordingError` text set by `startRecording`'s synchronous
environment checks before `getUserMedia` is reached (the insecure-context
branch differs only in its banner wording; no claim depends on the text). -/
def unsupportedErrorText : String :=
  "Microphone is not supported in this browser."

/-- The recording-related state of app/page.tsx: the list of currently live
microphone capture sessions (a stream plus its recorder), identified by
creation order, newest first; the `isRecording` flag; the number of
`getUserMedia` promises currently awaited inside pending `startRecording`
calls; a counter for fresh session identities; and the recording error
banner.  `startRecording` is `async` and suspends at
`await navigator.mediaDevices.getUserMedia(..)`, so its body is split below
at that await point and other events may run during the pendency. -/
structure RecState where
  sessions : List Nat
  isRecording : Bool
  pendingMic : Nat
  nextId : Nat
  recordingError : String
  deriving DecidableEq

/-- The initial recording state of a fresh page. -/
def recInit : RecState :=
  { sessions := [], isRecording := false, pendingMic := 0, nextId := 0,
    recordingError := "" }

/-- `stopRecording()` of app/page.tsx (synchronous): stop the current
recorder, `mediaRecorderRef.current` — the most recently created one, whose
onstop handler releases its stream — and clear the flag.  A session created
earlier and since overwritten in the ref is not stopped. -/
def stopRecording (s : RecState) : RecState :=
  { s with sessions := s.sessions.tail, isRecording := false }

/-- The synchronous prefix of `startRecording()` in app/page.tsx, up to the
suspension at `await navigator.mediaDevices.getUserMedia(..)`: clear the
error banner, run the secure-context and API-availability checks
(`micSupported = false` models either check failing, which sets a banner and
returns without requesting the microphone), then issue the `getUserMedia`
request and suspend.  Note that `isRecording` is NOT set here. -/
def startRecordingBegin (micSupported : Bool) (s : RecState) : RecState :=
  if micSupported then
    { s with recordingError := "", pendingMic := s.pendingMic + 1 }
  else { s with recordingError := unsupportedErrorText }

/-- The continuation of `startRecording()` after its awaited `getUserMedia`
promise resolves with a stream: store the stream in `mediaStreamRef`
(overwriting any previous one), create and start a `MediaRecorder` — a new
live capture session — and only now `setIsRecording(true)`.  With no pending
request there is nothing to resume. -/
def startRecordingGranted (s : RecState) : RecState :=
  if s.pendingMic = 0 then s
  else
    { s with
      pendingMic := s.pendingMic - 1,
      sessions := s.nextId :: s.sessions,
      isRecording := true,
      nextId := s.nextId + 1 }

/-- The catch of `startRecording()` when its awaited `getUserMedia` promise
rejects: set the error banner; no session is created and `isRecording` is
untouched. -/
def startRecordingDenied (s : RecState) : RecState :=
  if s.pendingMic = 0 then s
  else { s with pendingMic := s.pendingMic - 1, recordingError := micErrorText }

/-- `handleToggleRecording()` of app/page.tsx: stop when `isRecording` is
set, otherwise begin `startRecording` (which suspends at its await).  The
guard reads the flag at click time; a `startRecording` call still awaiting
the microphone has not set it yet. -/
def handleToggleRecording (micSupported : Bool) (s : RecState) : RecState :=
  if s.isRecording then stopRecording s else startRecordingBegin micSupported s

/-- An event on the browser's event loop that touches the recording state:
a click on the toggle button, or the resolution of a pending `getUserMedia`
promise (granted or denied). -/
inductive RecEvent where
  | click (micSupported : Bool)
  | micGranted
  | micDenied
  deriving DecidableEq

/-- One event-loop step of the recording state. -/
def recStep (s : RecState) : RecEvent → RecState
  | .click micSupported => handleToggleRecording micSupported s
  | .micGranted => startRecordingGranted s
  | .micDenied => startRecordingDenied s

/-- Run a sequence of event-loop events on the recording state. -/
def runRecEvents (evs : List RecEvent) (s : RecState) : RecState :=
  evs.foldl recStep s

/-- `needle` occurs verbatim inside `hay`. -/
def strContains (hay needle : String) : Prop :=
  ∃ p q, hay = p ++ needle ++ q

/-- C1: for every Chat Relay request with a string message and a configured
backend address, the request sent to the chat-completion service has `stream`
set to `false` and its messages list is, in order: one system message whose
content is the fixed persona prompt followed by the language hint line, then
the six fixed few-shot example messages, and the caller's message as the
final user turn. -/
theorem C1_chat_payload_shape (m : String) (lang : Option String)
    (env : ChatEnv) (url : String) (payload : ChatPayload)
    (h : chatPrepare { message := some (.str m), language := lang } env =
      .call url payload) :
    payload.stream = false ∧
    payload.messages =
      { role := "system", content := SYSTEM_PROMPT ++ "\n\n" ++ languageHint lang }
        :: fewShotMessages ++ [{ role := "user", content := m }] := by
  unfold chatPrepare at h
  by_cases hm : m = ""
  · simp [hm] at h
  · simp only [hm, if_false] at h
    cases henv : env.llmServerUrl with
    | none => rw [henv] at h; exact absurd h (by simp)
    | some base =>
        rw [henv] at h
        by_cases hb : base = ""
        · simp [hb] at h
        · simp only [hb, if_false, ChatPrep.call.injEq] at h
          obtain ⟨-, hp⟩ := h
          subst hp
          exact ⟨rfl, rfl⟩

/-- Witness for C1 at a concrete request. -/
theorem C1_chat_payload_shape_witness :
    (mkChatPayload "qwen2.5:7b" (some "english") "hi").stream = false ∧
    (mkChatPayload "qwen2.5:7b" (some "english") "hi").messages =
      { role := "system",
        content := SYSTEM_PROMPT ++ "\n\n" ++ languageHint (some "english") }
        :: fewShotMessages ++ [{ role := "user", content := "hi" }] :=
  C1_chat_payload_shape "hi" (some "english")
    { llmServerUrl := some "http://llm", llmModelName := none }
    ("http://llm" ++ "/api/chat")
    (mkChatPayload "qwen2.5:7b" (some "english") "hi") rfl

/-- C2: a Chat Relay request whose message field is missing or not a string
gets a 400 bad-request response and no call is made to the backend. -/
theorem C2_chat_bad_request (body : ChatBody) (env : ChatEnv)
    (h : body.message = none ∨ body.message = some .other) :
    chatPrepare body env = .badRequest 400 "Missing message" ∧
    (chatPrepare body env).callsBackend = false := by
  have he : chatPrepare body env = .badRequest 400 "Missing message" := by
    obtain h | h := h <;> simp [chatPrepare, h]
  exact ⟨he, by rw [he]; rfl⟩

/-- Witness for C2 at a concrete request with a missing message. -/
theorem C2_chat_bad_request_witness :
    chatPrepare { message := none, language := none }
        { llmServerUrl := some "http://llm", llmModelName := none } =
      .badRequest 400 "Missing message" ∧
    (chatPrepare { message := none, language := none }
        { llmServerUrl := some "http://llm", llmModelName := none }).callsBackend =
      false :=
  C2_chat_bad_request _ _ (Or.inl rfl)

/-- C9: the Chat Relay never rejects a request because of its language field:
for every language value the relay proceeds to the backend call; when a
language is present its string appears verbatim in the hint line, and when it
is absent the fixed auto-detect hint is used. -/
theorem C9_language_never_rejected (m : String) (hm : m ≠ "")
    (env : ChatEnv) (base : String) (hbase : env.llmServerUrl = some base)
    (hb : base ≠ "") (lang : Option String) :
    chatPrepare { message := some (.str m), language := lang } env =
      .call (base ++ "/api/chat")
        (mkChatPayload (jsOr env.llmModelName "qwen2.5:7b") lang m) ∧
    (∀ l, lang = some l → strContains (languageHint lang) l) ∧
    (lang = none → languageHint lang = autoDetectHint) := by
  refine ⟨by simp [chatPrepare, hm, hbase, hb], ?_, ?_⟩
  · rintro l rfl
    by_cases hl : l = ""
    · exact ⟨autoDetectHint, "", by simp [languageHint, hl]⟩
    · exact ⟨"User selected language/dialect: ",
        ". Reply in this language or dialect if possible.",
        by simp [languageHint, hl]⟩
  · rintro rfl
    rfl

/-- Witness for C9 at a concrete request whose language value lies outside
the enumerated set. -/
theorem C9_language_never_rejected_witness :
    chatPrepare { message := some (.str "hi"), language := some "klingon" }
        { llmServerUrl := some "http://llm", llmModelName := none } =
      .call ("http://llm" ++ "/api/chat")
        (mkChatPayload (jsOr none "qwen2.5:7b") (some "klingon") "hi") ∧
    strContains (languageHint (some "klingon")) "klingon" := by
  have h := C9_language_never_rejected "hi" (by decide)
    { llmServerUrl := some "http://llm", llmModelName := none }
    "http://llm" rfl (by decide) (some "klingon")
  exact ⟨h.1, h.2.1 "klingon" rfl⟩

/-- C3: when the ASR backend answers OK with a JSON body whose text field is
a string, the Transcription Relay returns that text with leading and
trailing whitespace removed; in particular a backend text of "  hello  "
yields "hello". -/
theorem C3_asr_trims_text :
    (∀ t : String,
      asrHandleBackend (.okBody (some { text := some (.str t) })) = .ok (jsTrim t)) ∧
    asrHandleBackend (.okBody (some { text := some (.str "  hello  ") })) =
      .ok "hello" := by
  refine ⟨fun t => rfl, ?_⟩
  show AsrResponse.ok (jsTrim "  hello  ") = .ok "hello"
  decide

/-- C4 counterexample: with a configured backend, an `audio` field holding
the plain text value "hello" (present but not a binary blob) is answered
with status 500, not with the claimed 400 bad request, because re-wrapping
the non-Blob value throws inside the handler's try block. -/
theorem C4_asr_nonblob_counterexample :
    asrPrepare (some "http://asr") (.text "hello") =
      .resp 500 "Internal server error in /api/asr" ∧
    (asrPrepare (some "http://asr") (.text "hello")).statusOf ≠ some 400 := by
  decide

/-- C4 amended: with a configured backend, an absent `audio` field (or an
empty text value, which is equally falsy) is answered 400 "Missing audio
file"; a present non-empty text value is answered 500 by the catch-all
instead of 400; in every non-blob case the speech-recognition backend is
never called. -/
theorem C4_asr_bad_request_amended (u : String) (hu : u ≠ "")
    (audio : FormVal) :
    ((audio = .absent ∨ audio = .text "") →
      asrPrepare (some u) audio = .resp 400 "Missing audio file") ∧
    (∀ s, s ≠ "" → audio = .text s →
      asrPrepare (some u) audio = .resp 500 "Internal server error in /api/asr") ∧
    (audio = .absent ∨ (∃ s, audio = .text s) →
      ∀ url f b fn, asrPrepare (some u) audio ≠ .call url f b fn) := by
  refine ⟨?_, ?_, ?_⟩
  · rintro (rfl | rfl) <;> simp [asrPrepare, hu]
  · rintro s hs rfl
    simp [asrPrepare, hu, hs]
  · rintro (rfl | ⟨s, rfl⟩) url f b fn
    · simp [asrPrepare, hu]
    · by_cases hs : s = "" <;> simp [asrPrepare, hu, hs]

/-- Witness for C4 (amended) at a concrete request with a missing audio
field. -/
theorem C4_asr_bad_request_amended_witness :
    asrPrepare (some "http://asr") .absent = .resp 400 "Missing audio file" :=
  (C4_asr_bad_request_amended "http://asr" (by decide) .absent).1 (Or.inl rfl)

/-- C5 counterexample: in the voice flow, a non-success HTTP response from
the transcription relay and a whitespace-only transcription display the very
same inline message, so these two failure categories are not distinct. -/
theorem C5_error_messages_counterexample :
    transcribeErrorMessage (.httpFail 502 "boom") = some voiceFailText ∧
    transcribeErrorMessage (.ok (some "   ")) = some voiceFailText ∧
    transcribeErrorMessage (.httpFail 502 "boom") =
      transcribeErrorMessage (.ok (some "   ")) := by
  decide

/-- C5 amended: the chat-send flow shows distinct messages for a transport
failure and for a non-success HTTP response (with its fallback text), and
each differs from the voice-flow message; but within the voice flow a
transport failure, a non-success HTTP response and an empty (whitespace-only)
transcription all display one and the same message. -/
theorem C5_error_messages_amended :
    chatErrorMessage .netFail ≠ chatErrorMessage (.httpFail none) ∧
    chatErrorMessage .netFail ≠ some voiceFailText ∧
    chatErrorMessage (.httpFail none) ≠ some voiceFailText ∧
    transcribeErrorMessage .netFail = some voiceFailText ∧
    transcribeErrorMessage (.httpFail 502 "boom") = some voiceFailText ∧
    transcribeErrorMessage (.ok (some "   ")) = some voiceFailText := by
  decide

/-- C6: submitting blank (empty or whitespace-only) text, or submitting
while a chat request is in flight, is a no-op: the state is returned
unchanged and no request is issued. -/
theorem C6_blank_or_inflight_submit_noop (overrideText : Option String)
    (result : ChatSendResult) (s : UIState)
    (h : jsTrim (overrideText.getD s.input) = "" ∨ s.loading = true) :
    sendMessage overrideText result s = (s, none) := by
  unfold sendMessage
  obtain h | h := h <;> simp [h]

/-- Witness for C6 at a concrete whitespace-only submission. -/
theorem C6_blank_or_inflight_submit_noop_witness :
    sendMessage none .netFail
      { messages := [], input := "   ", language := "auto", loading := false,
        errorText := "", isRecording := false, isTranscribing := false,
        recordingError := "" } =
      ({ messages := [], input := "   ", language := "auto", loading := false,
         errorText := "", isRecording := false, isTranscribing := false,
         recordingError := "" }, none) :=
  C6_blank_or_inflight_submit_noop none .netFail _ (Or.inl (by decide))

/-- C7: the claimed mutual exclusion is violated by the code.  From a fresh
page, a second toggle click arriving while the first `startRecording` is
still awaiting `getUserMedia` also sees `isRecording = false` (the flag is
set only after the await), so it begins a second `startRecording`; when both
microphone requests are granted, two streams and two recorders are live at
once — two simultaneous capture sessions, twice the claimed maximum of one,
and `isRecording` is left set with the first session unreachable from the
refs. -/
theorem C7_double_start_code_bug :
    (runRecEvents [.click true, .click true, .micGranted, .micGranted]
        recInit).sessions.length = 2 ∧
    ¬ ((runRecEvents [.click true, .click true, .micGranted, .micGranted]
        recInit).sessions.length ≤ 1) ∧
    (runRecEvents [.click true, .click true, .micGranted, .micGranted]
        recInit).isRecording = true := by
  decide

/-- C8: after a recording's audio is transcribed, a success with non-empty
trimmed text is submitted through the very same `sendMessage` used for typed
input; any failure or empty text sets the voice error message, issues no
chat request, and leaves the conversation history unchanged. -/
theorem C8_voice_flow (asrResult : AsrFlowResult) (chatResult : ChatSendResult)
    (s : UIState) :
    (∀ t, asrResult = .ok (some t) → jsTrim t ≠ "" →
      handleAudioBlob asrResult chatResult s =
        sendMessage (some (jsTrim t)) chatResult
          { s with recordingError := "", isTranscribing := false }) ∧
    ((transcribeAudio asrResult).fst = "" →
      handleAudioBlob asrResult chatResult s =
        ({ s with recordingError := voiceFailText, isTranscribing := false },
          none)) := by
  constructor
  · rintro t rfl ht
    unfold handleAudioBlob transcribeAudio
    simp [ht]
  · intro h0
    unfold handleAudioBlob
    cases asrResult with
    | netFail => rfl
    | httpFail st b => rfl
    | ok t =>
        unfold transcribeAudio at h0 ⊢
        by_cases ht : jsTrim (t.getD "") = ""
        · simp [ht]
        · simp [ht] at h0

/-- Witness for C8 at a concrete successful transcription. -/
theorem C8_voice_flow_witness :
    handleAudioBlob (.ok (some " hi ")) (.ok (some "ok lah"))
      { messages := [], input := "", language := "auto", loading := false,
        errorText := "", isRecording := false, isTranscribing := true,
        recordingError := "old" } =
      sendMessage (some (jsTrim " hi ")) (.ok (some "ok lah"))
        { messages := [], input := "", language := "auto", loading := false,
          errorText := "", isRecording := false, isTranscribing := false,
          recordingError := "" } :=
  (C8_voice_flow (.ok (some " hi ")) (.ok (some "ok lah")) _).1 " hi " rfl
    (by decide)

/-- `v || dflt` is never empty when the fallback is not. -/
theorem jsOr_ne_empty (v : Option String) (d : String) (hd : d ≠ "") :
    jsOr v d ≠ "" := by
  unfold jsOr
  cases v with
  | none => exact hd
  | some t =>
      by_cases ht : t = ""
      · simp [ht]; exact hd
      · simp [ht]

/-- C10: when the chat request of a non-blank submission fails (transport
failure or non-success HTTP response), the optimistically appended user entry
remains, no assistant entry is appended, a non-empty error text is set, the
loading flag ends false, and the request was indeed issued. -/
theorem C10_failed_send (overrideText : Option String)
    (result : ChatSendResult) (s : UIState)
    (hc : jsTrim (overrideText.getD s.input) ≠ "") (hl : s.loading = false)
    (hr : result = .netFail ∨ ∃ e, result = .httpFail e) :
    (sendMessage overrideText result s).fst.messages =
      s.messages ++
        [{ role := "user", content := jsTrim (overrideText.getD s.input) }] ∧
    (sendMessage overrideText result s).fst.loading = false ∧
    (sendMessage overrideText result s).fst.errorText ≠ "" ∧
    (sendMessage overrideText result s).snd =
      some { message := jsTrim (overrideText.getD s.input),
             language := if s.language = "auto" then none
               else some s.language } := by
  rcases hr with rfl | ⟨e, rfl⟩ <;>
    refine ⟨?_, ?_, ?_, ?_⟩ <;>
    simp [sendMessage, hc, hl]
  · decide
  · exact jsOr_ne_empty e serverBusyText (by decide)

/-- Witness for C10 at a concrete failed submission. -/
theorem C10_failed_send_witness :
    (sendMessage none .netFail
      { messages := [], input := "hi", language := "auto", loading := false,
        errorText := "", isRecording := false, isTranscribing := false,
        recordingError := "" }).fst.messages =
      [{ role := "user", content := "hi" }] ∧
    (sendMessage none .netFail
      { messages := [], input := "hi", language := "auto", loading := false,
        errorText := "", isRecording := false, isTranscribing := false,
        recordingError := "" }).fst.loading = false := by
  have h := C10_failed_send none .netFail
    { messages := [], input := "hi", language := "auto", loading := false,
      errorText := "", isRecording := false, isTranscribing := false,
      recordingError := "" } (by decide) rfl (Or.inl rfl)
  exact ⟨h.1, h.2.1⟩
